import Mathlib

/-!
Verification of the Text Toolkit API request handler (`src/main.py`).

The service exposes one endpoint, `POST /analyze`.  The handler validates
that the request text is non-empty, then issues three sequential inference
calls (summary, keywords, sentiment) to a local Ollama server through
`call_ollama`, parses the three raw replies, and assembles the response.

The embedding below models:
  * Python string primitives used by the handler (`strip`, `lower`,
    `split(",")`, the substring test `in`) as executable functions on
    `List Char`, restricted to ASCII case mapping and the ASCII whitespace
    characters that Python's `str.strip` removes;
  * `json.loads` as a strict JSON parser `json_loads` into an inductive
    `Json` value type.  JSON numerals with a fractional part or an
    exponent, and the non-standard `NaN`/`Infinity` extensions, are outside
    the modelled fragment (no claim exercises a float); every other part of
    the grammar (strings with escapes, arrays, objects, integers, literals)
    is parsed as Python does, and a document is accepted only when the whole
    input is consumed;
  * Python `str()` coercion of JSON-derived values as `pyStr` (with
    `pyRepr` for elements of containers);
  * `call_ollama` over an abstract HTTP reply (status code plus the parsed
    JSON body, whose `"response"` field is modelled as a string-valued
    dictionary entry);
  * the handler `analyze` as a pure function of the request and of a
    collaborator `gen : String → Except HTTPException String` standing for
    one `call_ollama` round trip; it also returns the list of prompts it
    issued, in order, so that call counts and call order are provable.
-/

/-- ASCII whitespace characters removed by Python's `str.strip()`. -/
def isPySpace (c : Char) : Bool :=
  c = ' ' || c = '\t' || c = '\n' || c = '\r' || c = '\x0b' || c = '\x0c'

/-- Model of Python `str.strip()` on the character list: drop whitespace
from both ends. -/
def stripList (l : List Char) : List Char :=
  ((l.dropWhile isPySpace).reverse.dropWhile isPySpace).reverse

/-- Model of Python `str.strip()` (`main.py` lines 31, 35, 60). -/
def pyStrip (s : String) : String :=
  ⟨stripList s.data⟩

/-- Model of Python `str.lower()` (ASCII letters; `main.py` line 68). -/
def pyLower (s : String) : String :=
  ⟨s.data.map Char.toLower⟩

/-- Executable substring test: does `needle` occur contiguously in `hay`?
Model of Python's `in` operator on strings (`main.py` lines 69, 71). -/
def containsSub (needle : List Char) : List Char → Bool
  | [] => needle.isPrefixOf []
  | c :: rest => needle.isPrefixOf (c :: rest) || containsSub needle rest

/-- Model of Python `s.split(",")` (`main.py` line 60): split at every
comma, keeping empty fragments; the empty string yields one empty piece. -/
def splitOnComma : List Char → List (List Char)
  | [] => [[]]
  | c :: rest =>
    if c = ',' then [] :: splitOnComma rest
    else
      match splitOnComma rest with
      | [] => [[c]]
      | g :: gs => (c :: g) :: gs

/-- JSON values as produced by `json.loads` (integer numerals only; see the
file comment for the modelled fragment). -/
inductive Json where
  | null : Json
  | bool : Bool → Json
  | num : Int → Json
  | str : String → Json
  | arr : List Json → Json
  | obj : List (String × Json) → Json

/-- Hexadecimal digit for Python `\xhh` escapes in `repr`. -/
def pyHexDigit (n : Nat) : Char :=
  if n < 10 then Char.ofNat ('0'.toNat + n) else Char.ofNat ('a'.toNat + n - 10)

/-- Escape one character of a Python string literal rendered with quote
character `q`, as `repr` does (ASCII fragment). -/
def pyEscChar (q : Char) (c : Char) : List Char :=
  if c = '\\' then ['\\', '\\']
  else if c = q then ['\\', q]
  else if c = '\n' then ['\\', 'n']
  else if c = '\r' then ['\\', 'r']
  else if c = '\t' then ['\\', 't']
  else if c.toNat < 32 || c.toNat = 127 then
    ['\\', 'x', pyHexDigit (c.toNat / 16), pyHexDigit (c.toNat % 16)]
  else [c]

/-- Model of Python `repr` on a string: single quotes unless the string
holds a single quote and no double quote (ASCII fragment). -/
def pyReprStr (s : String) : String :=
  let q := if s.data.contains '\'' && !(s.data.contains '"') then '"' else '\''
  ⟨q :: s.data.foldr (fun c acc => pyEscChar q c ++ acc) [q]⟩

mutual
/-- Model of Python `repr` on a JSON-derived value (used for elements when
a container is rendered by `str`). -/
def pyRepr : Json → String
  | Json.null => "None"
  | Json.bool true => "True"
  | Json.bool false => "False"
  | Json.num n => toString n
  | Json.str s => pyReprStr s
  | Json.arr xs => "[" ++ String.intercalate ", " (pyReprList xs) ++ "]"
  | Json.obj ms => "\x7b" ++ String.intercalate ", " (pyReprMembers ms) ++ "\x7d"

/-- Renders each element of a JSON array with `pyRepr`. -/
def pyReprList : List Json → List String
  | [] => []
  | v :: vs => pyRepr v :: pyReprList vs

/-- Renders each member of a JSON object as `repr(key): repr(value)`. -/
def pyReprMembers : List (String × Json) → List String
  | [] => []
  | (k, v) :: ms => (pyReprStr k ++ ": " ++ pyRepr v) :: pyReprMembers ms
end

/-- Model of Python `str()` on a JSON-derived value (`main.py` line 57):
a string is returned as itself, any other value as its `repr`. -/
def pyStr (v : Json) : String :=
  match v with
  | Json.str s => s
  | v => pyRepr v

/-- JSON whitespace accepted between tokens by `json.loads`. -/
def isJsonWs (c : Char) : Bool :=
  c = ' ' || c = '\t' || c = '\n' || c = '\r'

/-- Drops leading JSON whitespace. -/
def skipWs : List Char → List Char
  | [] => []
  | c :: cs => if isJsonWs c then skipWs cs else c :: cs

/-- Value of one escape character after a backslash in a JSON string
literal (the `\uXXXX` form is handled separately). -/
def jsonEsc? (c : Char) : Option Char :=
  if c = '"' then some '"'
  else if c = '\\' then some '\\'
  else if c = '/' then some '/'
  else if c = 'b' then some (Char.ofNat 8)
  else if c = 'f' then some (Char.ofNat 12)
  else if c = 'n' then some '\n'
  else if c = 'r' then some '\r'
  else if c = 't' then some '\t'
  else none

/-- Value of a hexadecimal digit, if any. -/
def hexDigit? (c : Char) : Option Nat :=
  if '0' ≤ c ∧ c ≤ '9' then some (c.toNat - '0'.toNat)
  else if 'a' ≤ c ∧ c ≤ 'f' then some (c.toNat - 'a'.toNat + 10)
  else if 'A' ≤ c ∧ c ≤ 'F' then some (c.toNat - 'A'.toNat + 10)
  else none

/-- Value of a four-digit hexadecimal escape. -/
def hex4? (a b c d : Char) : Option Nat := do
  let va ← hexDigit? a
  let vb ← hexDigit? b
  let vc ← hexDigit? c
  let vd ← hexDigit? d
  pure (((va * 16 + vb) * 16 + vc) * 16 + vd)

/-- Parses the body of a JSON string literal after the opening quote,
returning the decoded characters and the input after the closing quote.
Unescaped control characters are rejected, as `json.loads` (strict mode)
does. -/
def parseStrBody : List Char → Option (List Char × List Char)
  | [] => none
  | '"' :: rest => some ([], rest)
  | '\\' :: 'u' :: a :: b :: c :: d :: rest => do
    let n ← hex4? a b c d
    let (s, r) ← parseStrBody rest
    pure (Char.ofNat n :: s, r)
  | '\\' :: e :: rest => do
    let c ← jsonEsc? e
    let (s, r) ← parseStrBody rest
    pure (c :: s, r)
  | c :: rest =>
    if c.toNat < 32 then none
    else do
      let (s, r) ← parseStrBody rest
      pure (c :: s, r)

/-- Decimal digit test. -/
def isDigitC (c : Char) : Bool := '0' ≤ c && c ≤ '9'

/-- Numeric value of a digit string. -/
def digitsVal (ds : List Char) : Nat :=
  ds.foldl (fun a c => a * 10 + (c.toNat - '0'.toNat)) 0

/-- Parses a JSON integer numeral: optional minus sign, then `0` or a
nonzero digit followed by digits, with no leading zeros.  A numeral
continuing with `.`, `e` or `E` is a float, outside the modelled fragment,
and is rejected. -/
def parseIntLit (cs : List Char) : Option (Int × List Char) :=
  let (neg, cs1) := match cs with
    | '-' :: rest => (true, rest)
    | _ => (false, cs)
  match cs1 with
  | [] => none
  | c :: _ =>
    if !isDigitC c then none
    else
      let ds := cs1.takeWhile isDigitC
      let rest := cs1.dropWhile isDigitC
      if ds.head? = some '0' && ds.length > 1 then none
      else
        match rest with
        | c2 :: _ =>
          if c2 = '.' || c2 = 'e' || c2 = 'E' then none
          else some (if neg then -(digitsVal ds : Int) else (digitsVal ds : Int), rest)
        | [] => some (if neg then -(digitsVal ds : Int) else (digitsVal ds : Int), [])

mutual
/-- Parses one JSON value (after skipping leading whitespace), returning
the value and the remaining input.  `fuel` bounds recursion depth; the
top-level wrapper passes more fuel than any input can consume. -/
def parseVal : Nat → List Char → Option (Json × List Char)
  | 0, _ => none
  | Nat.succ fuel, cs =>
    match skipWs cs with
    | '"' :: rest => Option.map (fun p => (Json.str ⟨p.1⟩, p.2)) (parseStrBody rest)
    | '[' :: rest =>
      (match skipWs rest with
       | ']' :: r2 => some (Json.arr [], r2)
       | cs2 => Option.map (fun p => (Json.arr p.1, p.2)) (parseElems fuel cs2))
    | '\x7b' :: rest =>
      (match skipWs rest with
       | '\x7d' :: r2 => some (Json.obj [], r2)
       | cs2 => Option.map (fun p => (Json.obj p.1, p.2)) (parseMembers fuel cs2))
    | 't' :: 'r' :: 'u' :: 'e' :: rest => some (Json.bool true, rest)
    | 'f' :: 'a' :: 'l' :: 's' :: 'e' :: rest => some (Json.bool false, rest)
    | 'n' :: 'u' :: 'l' :: 'l' :: rest => some (Json.null, rest)
    | cs2 => Option.map (fun p => (Json.num p.1, p.2)) (parseIntLit cs2)

/-- Parses the elements of a non-empty JSON array up to and including the
closing bracket. -/
def parseElems : Nat → List Char → Option (List Json × List Char)
  | 0, _ => none
  | Nat.succ fuel, cs =>
    (parseVal fuel cs).bind fun (v, r) =>
      match skipWs r with
      | ',' :: r2 => Option.map (fun p => (v :: p.1, p.2)) (parseElems fuel r2)
      | ']' :: r2 => some ([v], r2)
      | _ => none

/-- Parses the members of a non-empty JSON object up to and including the
closing brace. -/
def parseMembers : Nat → List Char → Option (List (String × Json) × List Char)
  | 0, _ => none
  | Nat.succ fuel, cs =>
    match skipWs cs with
    | '"' :: rest =>
      (parseStrBody rest).bind fun (k, r) =>
        match skipWs r with
        | ':' :: r2 =>
          (parseVal fuel r2).bind fun (v, r3) =>
            match skipWs r3 with
            | ',' :: r4 => Option.map (fun p => ((⟨k⟩, v) :: p.1, p.2)) (parseMembers fuel r4)
            | '\x7d' :: r4 => some ([(⟨k⟩, v)], r4)
            | _ => none
        | _ => none
    | _ => none
end

/-- Model of Python `json.loads` (`main.py` line 54) on the modelled JSON
fragment: parse one value and require the rest of the input to be
whitespace. -/
def json_loads (s : String) : Option Json :=
  match parseVal (2 * s.data.length + 2) s.data with
  | some (v, rest) => if skipWs rest = [] then some v else none
  | none => none

/-- True when a parse result is a JSON array (`isinstance(keywords, list)`,
`main.py` line 55). -/
def isJsonArr : Option Json → Bool
  | some (Json.arr _) => true
  | _ => false

/-- The comma-split fallback of `main.py` line 60:
`[k.strip() for k in keywords_raw.split(",") if k.strip()]`. -/
def commaFallback (raw : String) : List String :=
  (((splitOnComma raw.data).map (fun g => (⟨stripList g⟩ : String))).filter
    (fun k => k ≠ ""))

/-- Keyword parsing of `main.py` lines 53-60: strict JSON parse; when the
result is an array, coerce every element with `str()`; otherwise (parse
failure or non-array value) fall back to the comma split. -/
def parseKeywords (raw : String) : List String :=
  match json_loads raw with
  | some (Json.arr xs) => xs.map pyStr
  | _ => commaFallback raw

/-- Sentiment normalisation of `main.py` lines 68-74: lower-case the raw
reply, then test for the substrings "positive" and "negative". -/
def normalizeSentiment (raw : String) : String :=
  let s := pyLower raw
  if containsSub "positive".data s.data then "positive"
  else if containsSub "negative".data s.data then "negative"
  else "neutral"

/-- The error raised by the handler, carrying an HTTP status code and a
detail message (FastAPI `HTTPException`). -/
structure HTTPException where
  status_code : Nat
  detail : String
deriving DecidableEq

/-- Request model (`main.py` lines 8-10): `text` is required,
`max_summary_words` defaults to 80.  No further constraint is declared. -/
structure AnalyzeRequest where
  text : String
  max_summary_words : Int := 80
deriving DecidableEq

/-- Response model (`main.py` lines 12-15). -/
structure AnalyzeResponse where
  summary : String
  keywords : List String
  sentiment : String
deriving DecidableEq

/-- One HTTP reply from the Ollama endpoint: the status code and the
parsed JSON body, modelled as a string-valued dictionary (the `"response"`
field holds the generated text). -/
structure OllamaReply where
  status_code : Nat
  body : List (String × String)
deriving DecidableEq

/-- Model of Python `data.get(key, dflt)` on the reply dictionary. -/
def dictGetD (d : List (String × String)) (k : String) (dflt : String) : String :=
  match d.find? (fun kv => kv.1 = k) with
  | some kv => kv.2
  | none => dflt

/-- Model of `call_ollama` (`main.py` lines 17-31) given the reply of the
endpoint: a non-200 status raises `HTTPException(500, "Ollama error")`;
otherwise the `"response"` field (default `""`) is returned stripped. -/
def call_ollama (reply : OllamaReply) : Except HTTPException String :=
  if reply.status_code ≠ 200 then Except.error ⟨500, "Ollama error"⟩
  else Except.ok (pyStrip (dictGetD reply.body "response" ""))

/-- The summary prompt of `main.py` lines 39-43. -/
def summary_prompt (max_summary_words : Int) (text : String) : String :=
  "Summarize the following text in no more than " ++ toString max_summary_words ++
    " words. Use plain English.\n\nTEXT:\n" ++ text

/-- The keywords prompt of `main.py` lines 47-51. -/
def keywords_prompt (text : String) : String :=
  "Extract 5-10 important keywords or key phrases from the text below. " ++
    "Return ONLY a JSON array of strings, nothing else.\n\nTEXT:\n" ++ text

/-- The sentiment prompt of `main.py` lines 63-66. -/
def sentiment_prompt (text : String) : String :=
  "Decide whether the sentiment of the following text is positive, " ++
    "neutral, or negative. Answer with ONE WORD: positive, neutral, or negative.\n\nTEXT:\n" ++
    text

/-- The handler `analyze` (`main.py` lines 33-80) as a pure function of the
request and of the inference collaborator `gen` (one `call_ollama` round
trip per prompt).  It returns the prompts issued, in order, together with
the outcome: the empty-text rejection issues no call; a failing call aborts
the remaining steps and propagates the error. -/
def analyze (gen : String → Except HTTPException String) (req : AnalyzeRequest) :
    List String × Except HTTPException AnalyzeResponse :=
  if pyStrip req.text = "" then ([], Except.error ⟨400, "Text is empty"⟩)
  else
    let p1 := summary_prompt req.max_summary_words req.text
    match gen p1 with
    | Except.error e => ([p1], Except.error e)
    | Except.ok summary =>
      let p2 := keywords_prompt req.text
      match gen p2 with
      | Except.error e => ([p1, p2], Except.error e)
      | Except.ok keywords_raw =>
        let keywords := parseKeywords keywords_raw
        let p3 := sentiment_prompt req.text
        match gen p3 with
        | Except.error e => ([p1, p2, p3], Except.error e)
        | Except.ok sentiment_raw =>
          ([p1, p2, p3], Except.ok ⟨summary, keywords, normalizeSentiment sentiment_raw⟩)

/-- Input text of the end-to-end stub scenario in the spec's testable
properties. -/
def stubText : String := "The new policy was well received by most employees."

/-- Request of the end-to-end stub scenario. -/
def stubReq : AnalyzeRequest := ⟨stubText, 80⟩

/-- Stub inference collaborator: a fixed summary, the JSON array
`["policy", "employees"]` for the keywords prompt, and `"positive"` for the
sentiment prompt. -/
def stubGen : String → Except HTTPException String := fun p =>
  if p = keywords_prompt stubText then Except.ok "[\"policy\", \"employees\"]"
  else if p = sentiment_prompt stubText then Except.ok "positive"
  else Except.ok "A fixed summary."

/-- An executable substring test agrees with contiguous-sublist
containment. -/
theorem containsSub_iff (needle hay : List Char) :
    containsSub needle hay = true ↔ needle <:+: hay := by
  induction hay with
  | nil => simp [containsSub, List.isPrefixOf_iff_prefix]
  | cons c rest ih =>
    simp [containsSub, List.isPrefixOf_iff_prefix, ih, List.infix_cons_iff]

/-- The head of `dropWhile p l`, when present, falsifies `p`. -/
theorem head?_dropWhile_false {α : Type} (p : α → Bool) (l : List α) {c : α}
    (h : (l.dropWhile p).head? = some c) : p c = false := by
  induction l with
  | nil => simp [List.dropWhile] at h
  | cons a as ih =>
    rw [List.dropWhile_cons] at h
    by_cases hp : p a
    · rw [if_pos hp] at h
      exact ih h
    · rw [if_neg hp] at h
      simp at h
      rw [← h]
      exact Bool.eq_false_iff.mpr hp

/-- Stripping removes a whitespace-only block from each end of the list. -/
theorem stripList_infix (l : List Char) :
    ∃ pre post, l = pre ++ stripList l ++ post ∧
      (∀ c ∈ pre, isPySpace c = true) ∧ (∀ c ∈ post, isPySpace c = true) := by
  refine ⟨l.takeWhile isPySpace,
    ((l.dropWhile isPySpace).reverse.takeWhile isPySpace).reverse, ?_, ?_, ?_⟩
  · have hsplit : l.takeWhile isPySpace ++ l.dropWhile isPySpace = l :=
      List.takeWhile_append_dropWhile isPySpace l
    conv_lhs => rw [← hsplit]
    rw [List.append_assoc]
    congr 1
    unfold stripList
    rw [← List.reverse_append, List.takeWhile_append_dropWhile, List.reverse_reverse]
  · intro c hc
    exact List.mem_takeWhile_imp hc
  · intro c hc
    rw [List.mem_reverse] at hc
    exact List.mem_takeWhile_imp hc

/-- The stripped list is a prefix of the left-stripped list. -/
theorem stripList_prefix_dropWhile (l : List Char) :
    stripList l <+: l.dropWhile isPySpace := by
  unfold stripList
  have h : (l.dropWhile isPySpace).reverse.dropWhile isPySpace <:+
      (l.dropWhile isPySpace).reverse :=
    List.dropWhile_suffix isPySpace
  have h2 : ((l.dropWhile isPySpace).reverse.dropWhile isPySpace).reverse <+:
      (l.dropWhile isPySpace).reverse.reverse :=
    List.reverse_prefix.mpr h
  rwa [List.reverse_reverse] at h2

/-- A stripped list does not start with whitespace. -/
theorem stripList_head?_not_space {l : List Char} {c : Char}
    (h : (stripList l).head? = some c) : isPySpace c = false := by
  obtain ⟨t, ht⟩ := stripList_prefix_dropWhile l
  have hd : (l.dropWhile isPySpace).head? = some c := by
    rw [← ht, List.head?_append, h]
    rfl
  exact head?_dropWhile_false _ _ hd

/-- A stripped list does not end with whitespace. -/
theorem stripList_getLast?_not_space {l : List Char} {c : Char}
    (h : (stripList l).getLast? = some c) : isPySpace c = false := by
  unfold stripList at h
  rw [List.getLast?_reverse] at h
  exact head?_dropWhile_false _ _ h

/-- Claim C1: whenever the strict JSON parse of the raw keywords reply
fails or yields a non-array value, `parseKeywords` returns the comma-split
fallback (split on commas, strip each piece, drop pieces that strip to
empty); in particular `"alpha, beta, , gamma"` yields exactly
`["alpha", "beta", "gamma"]` in order. -/
theorem parseKeywords_fallback_on_non_array :
    (∀ raw : String, isJsonArr (json_loads raw) = false →
      parseKeywords raw = commaFallback raw) ∧
    parseKeywords "alpha, beta, , gamma" = ["alpha", "beta", "gamma"] := by
  constructor
  · intro raw h
    unfold parseKeywords
    cases hj : json_loads raw with
    | none => rfl
    | some v =>
      cases v with
      | arr xs =>
        rw [hj] at h
        simp [isJsonArr] at h
      | null => rfl
      | bool b => rfl
      | num n => rfl
      | str s => rfl
      | obj ms => rfl
  · decide

/-- Witness for claim C1 at the concrete malformed reply. -/
theorem parseKeywords_fallback_on_non_array_witness :
    parseKeywords "alpha, beta, , gamma" = commaFallback "alpha, beta, , gamma" :=
  parseKeywords_fallback_on_non_array.1 "alpha, beta, , gamma" (by decide)

/-- Claim C2: whenever the raw keywords reply parses as a JSON array,
`parseKeywords` returns its elements coerced to strings, in the original
order and without deduplication; in particular the reply
`["alpha", "beta", "gamma"]` yields exactly those strings in order. -/
theorem parseKeywords_json_array :
    (∀ (raw : String) (xs : List Json), json_loads raw = some (Json.arr xs) →
      parseKeywords raw = xs.map pyStr) ∧
    parseKeywords "[\"alpha\", \"beta\", \"gamma\"]" = ["alpha", "beta", "gamma"] := by
  constructor
  · intro raw xs h
    unfold parseKeywords
    rw [h]
  · decide

/-- Witness for claim C2 at the concrete well-formed reply. -/
theorem parseKeywords_json_array_witness :
    parseKeywords "[\"alpha\", \"beta\", \"gamma\"]" =
      [Json.str "alpha", Json.str "beta", Json.str "gamma"].map pyStr :=
  parseKeywords_json_array.1 "[\"alpha\", \"beta\", \"gamma\"]"
    [Json.str "alpha", Json.str "beta", Json.str "gamma"] rfl

/-- Claim C3: `normalizeSentiment` lower-cases the raw reply and returns
"positive" when it contains the substring "positive", else "negative" when
it contains "negative", else "neutral"; the result always lies in the fixed
three-label set, the reply "Overall the tone is quite POSITIVE and
upbeat." yields "positive", and "I cannot determine this." yields
"neutral". -/
theorem normalizeSentiment_spec :
    (∀ raw : String,
      ("positive".data <:+: (pyLower raw).data →
        normalizeSentiment raw = "positive") ∧
      (¬ "positive".data <:+: (pyLower raw).data →
        "negative".data <:+: (pyLower raw).data →
        normalizeSentiment raw = "negative") ∧
      (¬ "positive".data <:+: (pyLower raw).data →
        ¬ "negative".data <:+: (pyLower raw).data →
        normalizeSentiment raw = "neutral") ∧
      normalizeSentiment raw ∈ ["positive", "neutral", "negative"]) ∧
    normalizeSentiment "Overall the tone is quite POSITIVE and upbeat." = "positive" ∧
    normalizeSentiment "I cannot determine this." = "neutral" := by
  refine ⟨fun raw => ?_, by decide, by decide⟩
  unfold normalizeSentiment
  refine ⟨fun hp => ?_, fun hnp hn => ?_, fun hnp hnn => ?_, ?_⟩
  · rw [if_pos ((containsSub_iff _ _).mpr hp)]
  · rw [if_neg (by rw [containsSub_iff]; exact hnp),
      if_pos ((containsSub_iff _ _).mpr hn)]
  · rw [if_neg (by rw [containsSub_iff]; exact hnp),
      if_neg (by rw [containsSub_iff]; exact hnn)]
  · by_cases h1 : containsSub "positive".data (pyLower raw).data = true
    · simp [h1]
    · by_cases h2 : containsSub "negative".data (pyLower raw).data = true <;>
        simp [h1, h2]

/-- Witness for claim C3 at the concrete replies. -/
theorem normalizeSentiment_spec_witness :
    normalizeSentiment "Overall the tone is quite POSITIVE and upbeat." = "positive" ∧
    normalizeSentiment "I cannot determine this." = "neutral" :=
  ⟨(normalizeSentiment_spec.1 "Overall the tone is quite POSITIVE and upbeat.").1
      ((containsSub_iff _ _).mp (by decide)),
    (normalizeSentiment_spec.1 "I cannot determine this.").2.2.1
      (fun h => by exact absurd ((containsSub_iff _ _).mpr h) (by decide))
      (fun h => by exact absurd ((containsSub_iff _ _).mpr h) (by decide))⟩

/-- Claim C4: a request whose text is empty or all-whitespace is rejected
with the 400 "Text is empty" error and no inference call is issued; a
request whose text has a non-whitespace character is not rejected by the
validator (the handler proceeds to the summary call, and any error of the
outcome is one returned by an issued inference call). -/
theorem analyze_empty_text_rejection :
    ∀ (gen : String → Except HTTPException String) (req : AnalyzeRequest),
      (pyStrip req.text = "" →
        analyze gen req = ([], Except.error ⟨400, "Text is empty"⟩)) ∧
      (pyStrip req.text ≠ "" →
        (analyze gen req).1.head? =
          some (summary_prompt req.max_summary_words req.text) ∧
        ∀ e, (analyze gen req).2 = Except.error e →
          ∃ p ∈ (analyze gen req).1, gen p = Except.error e) := by
  intro gen req
  constructor
  · intro h
    simp [analyze, h]
  · intro h
    cases h1 : gen (summary_prompt req.max_summary_words req.text) with
    | error e1 =>
      simp [analyze, h, h1]
    | ok s1 =>
      cases h2 : gen (keywords_prompt req.text) with
      | error e2 =>
        simp [analyze, h, h1, h2]
      | ok s2 =>
        cases h3 : gen (sentiment_prompt req.text) with
        | error e3 =>
          simp [analyze, h, h1, h2, h3]
        | ok s3 =>
          simp [analyze, h, h1, h2, h3]

/-- Witness for claim C4: an all-whitespace request is rejected with no
call issued, and a non-blank request proceeds to the summary call. -/
theorem analyze_empty_text_rejection_witness :
    analyze (fun _ => Except.ok "fine") ⟨" \t\n", 80⟩ =
      ([], Except.error ⟨400, "Text is empty"⟩) ∧
    (analyze (fun _ => Except.ok "fine") ⟨"hi", 80⟩).1.head? =
      some (summary_prompt 80 "hi") :=
  ⟨(analyze_empty_text_rejection (fun _ => Except.ok "fine") ⟨" \t\n", 80⟩).1
      (by decide),
    ((analyze_empty_text_rejection (fun _ => Except.ok "fine") ⟨"hi", 80⟩).2
      (by decide)).1⟩

/-- Claim C5: when the collaborator is `call_ollama` over the endpoint's
replies and any of the three replies has a non-200 status, the whole
request fails with the 500 "Ollama error" rejection and the outcome carries
no response fields. -/
theorem analyze_no_partial_response :
    ∀ (server : String → OllamaReply) (req : AnalyzeRequest),
      pyStrip req.text ≠ "" →
      ((server (summary_prompt req.max_summary_words req.text)).status_code ≠ 200 ∨
       (server (keywords_prompt req.text)).status_code ≠ 200 ∨
       (server (sentiment_prompt req.text)).status_code ≠ 200) →
      (analyze (fun p => call_ollama (server p)) req).2 =
        Except.error ⟨500, "Ollama error"⟩ := by
  intro server req hne hfail
  by_cases h1 : (server (summary_prompt req.max_summary_words req.text)).status_code = 200
  · by_cases h2 : (server (keywords_prompt req.text)).status_code = 200
    · by_cases h3 : (server (sentiment_prompt req.text)).status_code = 200
      · rcases hfail with h | h | h <;> contradiction
      · simp [analyze, hne, call_ollama, h1, h2, h3]
    · simp [analyze, hne, call_ollama, h1, h2]
  · simp [analyze, hne, call_ollama, h1]

/-- Witness for claim C5: a failing keywords call makes the whole request
fail with the 500 error. -/
theorem analyze_no_partial_response_witness :
    (analyze
      (fun p =>
        call_ollama
          (if p = keywords_prompt "hey" then ⟨503, []⟩
           else ⟨200, [("response", "ok")]⟩))
      ⟨"hey", 80⟩).2 = Except.error ⟨500, "Ollama error"⟩ :=
  analyze_no_partial_response
    (fun p =>
      if p = keywords_prompt "hey" then ⟨503, []⟩ else ⟨200, [("response", "ok")]⟩)
    ⟨"hey", 80⟩ (by decide) (by decide)

set_option maxRecDepth 8192 in
/-- Claim C6: on a valid request whose three calls succeed, the handler
issues exactly three inference calls, in the fixed order summary, keywords,
sentiment — each prompt built from the original request only — and
assembles the three parsed values; with the stub collaborator (fixed
summary, `["policy", "employees"]` keywords reply, `"positive"` sentiment
reply) the response holds exactly those three values. -/
theorem analyze_three_sequential_calls :
    (∀ (gen : String → Except HTTPException String) (req : AnalyzeRequest)
        (s1 s2 s3 : String),
      pyStrip req.text ≠ "" →
      gen (summary_prompt req.max_summary_words req.text) = Except.ok s1 →
      gen (keywords_prompt req.text) = Except.ok s2 →
      gen (sentiment_prompt req.text) = Except.ok s3 →
      analyze gen req =
        ([summary_prompt req.max_summary_words req.text, keywords_prompt req.text,
          sentiment_prompt req.text],
         Except.ok ⟨s1, parseKeywords s2, normalizeSentiment s3⟩)) ∧
    analyze stubGen stubReq =
      ([summary_prompt 80 stubText, keywords_prompt stubText, sentiment_prompt stubText],
       Except.ok ⟨"A fixed summary.", ["policy", "employees"], "positive"⟩) := by
  constructor
  · intro gen req s1 s2 s3 h h1 h2 h3
    simp [analyze, h, h1, h2, h3]
  · rfl

set_option maxRecDepth 8192 in
/-- Witness for claim C6 at the stub collaborator and stub request. -/
theorem analyze_three_sequential_calls_witness :
    analyze stubGen stubReq =
      ([summary_prompt 80 stubText, keywords_prompt stubText, sentiment_prompt stubText],
       Except.ok
         ⟨"A fixed summary.", parseKeywords "[\"policy\", \"employees\"]",
           normalizeSentiment "positive"⟩) :=
  analyze_three_sequential_calls.1 stubGen stubReq
    "A fixed summary." "[\"policy\", \"employees\"]" "positive"
    (by decide) rfl rfl rfl

/-- Counterexample to claim C7 as stated: `max_summary_words` is not
required to be positive.  A request carrying the non-positive value 0 is
accepted and processed to a success response, and the summary prompt
embeds the cap 0 verbatim. -/
theorem max_summary_words_zero_accepted :
    (analyze (fun _ => Except.ok "reply") ⟨"hi", 0⟩).2 =
      Except.ok ⟨"reply", ["reply"], "neutral"⟩ ∧
    summary_prompt 0 "hi" =
      "Summarize the following text in no more than 0 words. " ++
        "Use plain English.\n\nTEXT:\nhi" := by
  constructor
  · rfl
  · rfl

/-- Claim C7 (amended): `max_summary_words` defaults to 80 when absent
from the request; any integer value is accepted without validation; and on
a non-blank request the first prompt the handler issues states a word cap
equal to the request's `max_summary_words` value. -/
theorem max_summary_words_default_and_prompt :
    (∀ t : String, ({ text := t } : AnalyzeRequest).max_summary_words = 80) ∧
    (∀ (gen : String → Except HTTPException String) (t : String) (m : Int),
      pyStrip t ≠ "" →
      (analyze gen ⟨t, m⟩).1.head? =
        some ("Summarize the following text in no more than " ++ toString m ++
          " words. Use plain English.\n\nTEXT:\n" ++ t)) := by
  constructor
  · intro t
    rfl
  · intro gen t m h
    have key : (analyze gen ⟨t, m⟩).1.head? = some (summary_prompt m t) := by
      cases h1 : gen (summary_prompt m t) with
      | error e1 => simp [analyze, h, h1]
      | ok s1 =>
        cases h2 : gen (keywords_prompt t) with
        | error e2 => simp [analyze, h, h1, h2]
        | ok s2 =>
          cases h3 : gen (sentiment_prompt t) with
          | error e3 => simp [analyze, h, h1, h2, h3]
          | ok s3 => simp [analyze, h, h1, h2, h3]
    rw [key]
    rfl

/-- Witness for the amended claim C7: the default applies and the summary
prompt of a request capped at 0 words states that cap. -/
theorem max_summary_words_default_and_prompt_witness :
    ({ text := "hi" } : AnalyzeRequest).max_summary_words = 80 ∧
    (analyze (fun _ => Except.ok "reply") ⟨"hi", 0⟩).1.head? =
      some ("Summarize the following text in no more than 0 words. " ++
        "Use plain English.\n\nTEXT:\nhi") :=
  ⟨max_summary_words_default_and_prompt.1 "hi",
    max_summary_words_default_and_prompt.2 (fun _ => Except.ok "reply") "hi" 0
      (by decide)⟩

/-- Claim C8: `call_ollama` returns the generated text (the `"response"`
field of the reply body) trimmed of leading and trailing whitespace on a
200 status, and fails with the 500 "Ollama error" rejection on every
non-success status.  Trimming means: the raw field splits as a
whitespace-only block, the returned text, and a whitespace-only block, and
the returned text neither starts nor ends with whitespace. -/
theorem call_ollama_status_spec :
    ∀ (reply : OllamaReply) (s : String),
      (reply.status_code ≠ 200 →
        call_ollama reply = Except.error ⟨500, "Ollama error"⟩) ∧
      (reply.status_code = 200 → dictGetD reply.body "response" "" = s →
        call_ollama reply = Except.ok (pyStrip s) ∧
        (∃ pre post, s.data = pre ++ (pyStrip s).data ++ post ∧
          (∀ c ∈ pre, isPySpace c = true) ∧ (∀ c ∈ post, isPySpace c = true)) ∧
        (∀ c, (pyStrip s).data.head? = some c → isPySpace c = false) ∧
        (∀ c, (pyStrip s).data.getLast? = some c → isPySpace c = false)) := by
  intro reply s
  constructor
  · intro h
    simp [call_ollama, h]
  · intro h hs
    refine ⟨by simp [call_ollama, h, hs], ?_, ?_, ?_⟩
    · exact stripList_infix s.data
    · intro c hc
      exact stripList_head?_not_space hc
    · intro c hc
      exact stripList_getLast?_not_space hc

/-- Witness for claim C8: a 200 reply returns the trimmed text, a 503
reply fails with the 500 error. -/
theorem call_ollama_status_spec_witness :
    call_ollama ⟨200, [("response", "  generated text \n")]⟩ =
      Except.ok (pyStrip "  generated text \n") ∧
    call_ollama ⟨503, []⟩ = Except.error ⟨500, "Ollama error"⟩ :=
  ⟨((call_ollama_status_spec ⟨200, [("response", "  generated text \n")]⟩
      "  generated text \n").2 rfl rfl).1,
    (call_ollama_status_spec ⟨503, []⟩ "").1 (by decide)⟩

/-- Claim C9: keyword coercion converts every JSON array element to its
Python string form instead of rejecting it: numbers take their decimal
form, `null` becomes "None", and booleans become "True"/"False"; the array
reply `[1, null, true, false, "x", -7]` yields exactly those forms. -/
theorem pyStr_lenient_coercion :
    pyStr Json.null = "None" ∧
    pyStr (Json.bool true) = "True" ∧
    pyStr (Json.bool false) = "False" ∧
    (∀ n : Int, pyStr (Json.num n) = toString n) ∧
    parseKeywords "[1, null, true, false, \"x\", -7]" =
      ["1", "None", "True", "False", "x", "-7"] :=
  ⟨rfl, rfl, rfl, fun _ => rfl, by decide⟩

/-- Claim C10: a 200 reply whose JSON body lacks the `"response"` field
makes `call_ollama` return the empty string rather than fail; the empty
string then yields an empty keywords list through the fallback split and a
"neutral" sentiment, so the handler can succeed with an empty summary, no
keywords and neutral sentiment. -/
theorem missing_response_field_defaults :
    (∀ reply : OllamaReply, reply.status_code = 200 →
      (∀ kv ∈ reply.body, kv.1 ≠ "response") →
      call_ollama reply = Except.ok "") ∧
    parseKeywords "" = [] ∧
    normalizeSentiment "" = "neutral" ∧
    (analyze (fun _ => Except.ok "") ⟨"hello", 80⟩).2 =
      Except.ok ⟨"", [], "neutral"⟩ := by
  refine ⟨?_, by decide, by decide, rfl⟩
  intro reply h hk
  have hfind : reply.body.find? (fun kv => kv.1 = "response") = none := by
    rw [List.find?_eq_none]
    intro kv hkv
    simp [hk kv hkv]
  simp [call_ollama, h, dictGetD, hfind]
  rfl

/-- Witness for claim C10: a 200 reply whose body holds only a `"model"`
field yields the empty string. -/
theorem missing_response_field_defaults_witness :
    call_ollama ⟨200, [("model", "llama3")]⟩ = Except.ok "" :=
  missing_response_field_defaults.1 ⟨200, [("model", "llama3")]⟩ rfl (by decide)
